import Mathlib

/-!
Shallow embedding of the storage/configuration layer of the goto repository
(src/goto/storage.py), together with a model of the teleport manager
(referenced by the repository's tests but absent from src/, hence modelled
from the specification where marked).

The document store abstracts the on-disk TOML files of the config home as a
state value: the settings file `_setting.toml` and one file `<name>.toml`
per profile name.  A file can be present with parseable content, present
but malformed (toml.load raises a decode error), or present but unreadable
(reading raises IOError).  Python exceptions are modelled by the `Err`
type; every operation returns its outcome together with the resulting
state, so that the disk state at the moment an exception propagates is
visible.
-/

namespace GotoStorage

/-- Exceptions that the Python code can raise: `StorageException msg`,
`KeyError` from a dict subscript, `toml.TomlDecodeError`, `IOError`
(also `OSError`), and `TypeError` (from `os.path.join(None, _)`). -/
inductive Err where
  | storage : String → Err
  | keyError : String → Err
  | parseError : Err
  | ioError : Err
  | typeError : Err
deriving Repr, DecidableEq

/-- TOML values as far as the repository stores them: strings, arrays and
tables (Python dicts, kept as insertion-ordered association lists). -/
inductive Toml where
  | str : String → Toml
  | arr : List Toml → Toml
  | table : List (String × Toml) → Toml

/-- A parsed document: the top-level key-value mapping of one TOML file. -/
abbrev Doc := List (String × Toml)

/-- Content of the `_setting.toml` document.  Each field models the
presence or absence of the corresponding key in the parsed dict. -/
structure SettingsDoc where
  current_profile : Option String
  profiles : Option (List String)
deriving Repr, DecidableEq

/-- State of the settings file on disk. -/
inductive SFile where
  | content : SettingsDoc → SFile
  | malformed : SFile
  | ioError : SFile
deriving Repr, DecidableEq

/-- State of a profile file on disk.  An empty file parses as the empty
document, so a freshly touched file is `content []`. -/
inductive PFile where
  | content : Doc → PFile
  | malformed : PFile
  | ioError : PFile

/-- The config-home directory contents: the settings file (if present) and
the profile files, keyed by profile name (the file is `<name>.toml`, and
appending the fixed extension is injective in the name). -/
structure FS where
  settings : Option SFile
  profileFiles : List (String × PFile)

/-- Python `name.startswith('_')`. -/
def startsWithUnderscore (s : String) : Bool :=
  match s.data with
  | [] => false
  | c :: _ => c = '_'

/-- Python dict subscript read on a string-keyed dict. -/
def lookupA {α : Type} : List (String × α) → String → Option α
  | [], _ => none
  | (k', v') :: rest, k => if k = k' then some v' else lookupA rest k

/-- Python dict subscript write on a string-keyed dict (updates in place,
appends a fresh key at the end). -/
def setA {α : Type} : List (String × α) → String → α → List (String × α)
  | [], k, v => [(k, v)]
  | (k', v') :: rest, k, v =>
      if k = k' then (k, v) :: rest else (k', v') :: setA rest k v

/-- Overwrites the file `<name>.toml` (write_file via update_named_profile). -/
def setPF (fs : FS) (name : String) (f : PFile) : FS :=
  { fs with profileFiles := setA fs.profileFiles name f }

/-- Message of the AlreadyExists branch of add_profile. -/
def sA : String := " is a profile that already exists"

/-- Message of the reserved-prefix branches of add_profile and
set_current_profile. -/
def sP : String := " - you cannot start profiles with \"_\""

/-- Message of the default-name branch of add_profile. -/
def sD : String := "You cannot remove default settings"

/-- Message of the NotFound branch of remove_profile. -/
def sN : String := " - not a profile that exists"

/-- Message of the reserved-prefix branch of get_named_profile. -/
def sG : String := " is an invalid name. Cannot start with \"_\""

/-- Default settings written on first access. -/
def defaultSettings : SettingsDoc :=
  { current_profile := some "default", profiles := some ["default"] }

/-- Python `_update_settings(data)`: whole-file rewrite of `_setting.toml`. -/
def _update_settings (data : SettingsDoc) (fs : FS) : FS :=
  { fs with settings := some (SFile.content data) }

/-- Python `_get_settings()`: if the settings file does not exist, write the
defaults first; then read and parse the file.  A malformed file raises a
toml decode error, an unreadable file raises IOError (neither is caught). -/
def _get_settings (fs : FS) : Except Err SettingsDoc × FS :=
  match fs.settings with
  | none =>
      (.ok defaultSettings, { fs with settings := some (SFile.content defaultSettings) })
  | some (.content s) => (.ok s, fs)
  | some .malformed => (.error .parseError, fs)
  | some .ioError => (.error .ioError, fs)

/-- Python `get_active_profile_name()`: `data.get('current_profile', 'default')`. -/
def get_active_profile_name (fs : FS) : Except Err String × FS :=
  match _get_settings fs with
  | (.error e, fs1) => (.error e, fs1)
  | (.ok data, fs1) => (.ok (data.current_profile.getD "default"), fs1)

/-- Python `list_profiles()`: `data.get('profiles', [])`. -/
def list_profiles (fs : FS) : Except Err (List String) × FS :=
  match _get_settings fs with
  | (.error e, fs1) => (.error e, fs1)
  | (.ok data, fs1) => (.ok (data.profiles.getD []), fs1)

/-- Python `add_profile(name)`: duplicate check, reserved-prefix check,
default check, then append and persist.  `data['profiles']` raises
KeyError when the key is absent. -/
def add_profile (name : String) (fs : FS) : Except Err Unit × FS :=
  match _get_settings fs with
  | (.error e, fs1) => (.error e, fs1)
  | (.ok data, fs1) =>
    match data.profiles with
    | none => (.error (.keyError "profiles"), fs1)
    | some ps =>
      if name ∈ ps then (.error (.storage (name ++ sA)), fs1)
      else if startsWithUnderscore name then (.error (.storage (name ++ sP)), fs1)
      else if name = "default" then (.error (.storage sD), fs1)
      else (.ok (), _update_settings { data with profiles := some (ps ++ [name]) } fs1)

/-- Python `remove_profile(name)`: existence check, then
`data['profiles'].remove(name)` (first occurrence) and persist.  There is
no check against removing `"default"`. -/
def remove_profile (name : String) (fs : FS) : Except Err Unit × FS :=
  match _get_settings fs with
  | (.error e, fs1) => (.error e, fs1)
  | (.ok data, fs1) =>
    match data.profiles with
    | none => (.error (.keyError "profiles"), fs1)
    | some ps =>
      if name ∉ ps then (.error (.storage (name ++ sN)), fs1)
      else (.ok (), _update_settings { data with profiles := some (ps.erase name) } fs1)

/-- Python `set_current_profile(name)`: reserved-prefix check, then
`data['current_profile'] = name` on the in-memory dict.  The function
never calls `_update_settings`, so the mutation is discarded. -/
def set_current_profile (name : String) (fs : FS) : Except Err Unit × FS :=
  match _get_settings fs with
  | (.error e, fs1) => (.error e, fs1)
  | (.ok _data, fs1) =>
    if startsWithUnderscore name then (.error (.storage (name ++ sP)), fs1)
    else (.ok (), fs1)

/-- Python `update_named_profile(name, data)`: wholesale overwrite of
`<name>.toml`, no validation. -/
def update_named_profile (name : String) (data : Doc) (fs : FS) : FS :=
  setPF fs name (PFile.content data)

/-- Python `get_named_profile(name, public_file)`: reserved-prefix check
when public; then `_retrieve_config` touches the file (an absent file is
created empty, and an empty file parses as the empty dict); a read that
raises IOError is caught, the file is overwritten with the empty dict and
the empty dict is returned; a toml decode error propagates. -/
def get_named_profile (name : String) (fs : FS) (public_file : Bool) :
    Except Err Doc × FS :=
  if public_file && startsWithUnderscore name then
    (.error (.storage (name ++ sG)), fs)
  else
    match lookupA fs.profileFiles name with
    | none => (.ok [], setPF fs name (PFile.content []))
    | some (.content d) => (.ok d, fs)
    | some .malformed => (.error .parseError, fs)
    | some .ioError => (.ok [], setPF fs name (PFile.content []))

/-- Python `get_default_profile()`. -/
def get_default_profile (fs : FS) : Except Err Doc × FS :=
  get_named_profile "default" fs true

/-- Python `update_default_profile(data)`. -/
def update_default_profile (data : Doc) (fs : FS) : FS :=
  update_named_profile "default" data fs

/-! ### Path resolver (get_config_home / touch_directory) -/

/-- Process environment and home directory as `get_config_home` reads them:
`os.environ.get('XDG_CONFIG_HOME')` and `os.path.expanduser('~')`. -/
structure Env where
  xdg_config_home : Option String
  home : String

/-- Directories existing on disk, for the path-resolver model. -/
structure DirFS where
  dirs : List String
deriving Repr, DecidableEq

/-- Python `os.path.join(a, b)` for a relative second component. -/
def pjoin (a b : String) : String :=
  if a = "" then b
  else if a.data.getLast? = some '/' then a ++ b
  else a ++ "/" ++ b

/-- Python `os.path.dirname`: drops the last path component. -/
def dirname (p : String) : String :=
  ⟨(((p.data.reverse.dropWhile (fun c => c ≠ '/')).drop 1).reverse)⟩

/-- Python `touch_directory(dirpath)`: `Path(dirpath).mkdir(exist_ok=True)`.
No error if the directory exists; without `parents=True`, mkdir raises
FileNotFoundError (an OSError) when the parent directory is missing. -/
def touch_directory (fs : DirFS) (dirpath : String) : Except Err DirFS :=
  if dirpath ∈ fs.dirs then .ok fs
  else if dirname dirpath ∈ fs.dirs then .ok ⟨dirpath :: fs.dirs⟩
  else .error .ioError

/-- Python `get_config_home()`.  The three candidate paths are computed
eagerly when the tuple passed to `util.cond` is built, so with
`XDG_CONFIG_HOME` unset the call `os.path.join(None, 'goto-cd')` raises
TypeError before any branch is selected.  `util.cond` itself is absent
from src/ and is modelled from the spec as first-match-wins selection
(a set-but-empty override is falsy in Python and is skipped). -/
def get_config_home (env : Env) (fs : DirFS) : Except Err String × DirFS :=
  match env.xdg_config_home with
  | none => (.error .typeError, fs)
  | some xdg =>
    let dot_config := pjoin env.home ".config"
    let dot_goto := pjoin env.home ".goto-cd"
    let home_path :=
      if xdg ≠ "" then pjoin xdg "goto-cd"
      else if dot_config ∈ fs.dirs then pjoin dot_config "goto-cd"
      else dot_goto
    match touch_directory fs home_path with
    | .ok fs2 => (.ok home_path, fs2)
    | .error e => (.error e, fs)

/-! ### Teleport manager

The teleport functions are exercised by the repository's tests
(tests/test_storage.py) but their implementation is not under src/; they
are modelled from the specification, section 4.5. -/

/-- Directory-existence oracle and `os.path.abspath`, for the teleport
manager's target validation. -/
structure World where
  dirs : List String
  abspathOf : String → String

/-- Reads a sub-table of a document; anything other than a present table
counts as the empty mapping. -/
def getTable (d : Doc) (key : String) : List (String × Toml) :=
  match lookupA d key with
  | some (Toml.table t) => t
  | _ => []

/-- Modelled from the spec: `list_teleports()` — all aliases stored under
the reserved `teleports` key of the active profile's document. -/
def list_teleports (fs : FS) : Except Err (List String) × FS :=
  match get_active_profile_name fs with
  | (.error e, fs1) => (.error e, fs1)
  | (.ok prof, fs1) =>
    match get_named_profile prof fs1 true with
    | (.error e, fs2) => (.error e, fs2)
    | (.ok d, fs2) => (.ok ((getTable d "teleports").map Prod.fst), fs2)

/-- Modelled from the spec: `set_teleport(alias, target_dir)` — fails with
InvalidName if the alias is empty, with TargetNotFound if the target is
not an existing directory; otherwise upserts
`alias → abspath(target_dir)` into the active profile's teleport table. -/
def set_teleport (w : World) (als target_dir : String) (fs : FS) :
    Except Err Unit × FS :=
  if als = "" then
    (.error (.storage "InvalidName: teleport alias may not be empty"), fs)
  else if target_dir ∈ w.dirs then
    match get_active_profile_name fs with
    | (.error e, fs1) => (.error e, fs1)
    | (.ok prof, fs1) =>
      match get_named_profile prof fs1 true with
      | (.error e, fs2) => (.error e, fs2)
      | (.ok d, fs2) =>
        let tels := setA (getTable d "teleports") als (Toml.str (w.abspathOf target_dir))
        (.ok (), update_named_profile prof (setA d "teleports" (Toml.table tels)) fs2)
  else
    (.error (.storage "TargetNotFound: teleport target is not an existing directory"), fs)

/-- Modelled from the spec: `get_teleport_target(alias)` — fails with
NotFound if the alias is absent, else returns the stored absolute path. -/
def get_teleport_target (als : String) (fs : FS) : Except Err String × FS :=
  match get_active_profile_name fs with
  | (.error e, fs1) => (.error e, fs1)
  | (.ok prof, fs1) =>
    match get_named_profile prof fs1 true with
    | (.error e, fs2) => (.error e, fs2)
    | (.ok d, fs2) =>
      match lookupA (getTable d "teleports") als with
      | some (Toml.str p) => (.ok p, fs2)
      | _ => (.error (.storage "NotFound: no such teleport alias"), fs2)

/-! ### Error taxonomy

The spec's error taxonomy names six conditions.  In the code every
storage-level condition is a `StorageException` whose message determines
the condition; parse failures and I/O failures are distinct exception
classes of their own.  `classify` recovers the condition from the raised
error alone. -/

/-- The spec's error taxonomy. -/
inductive ErrKind where
  | invalidName
  | alreadyExists
  | notFound
  | targetNotFound
  | parseError
  | filesystemError
deriving Repr, DecidableEq

/-- Suffix test on the character data of two strings. -/
def sfx (p s : String) : Bool := decide (p.data <:+ s.data)

/-- Maps a StorageException message to the taxonomy condition that raised
it, by its fixed tail (the variable profile name or alias is a prefix of
the message). -/
def msgKind (m : String) : Option ErrKind :=
  if sfx sA m then some .alreadyExists
  else if sfx sP m then some .invalidName
  else if sfx sG m then some .invalidName
  else if m = sD then some .invalidName
  else if sfx sN m then some .notFound
  else if m = "InvalidName: teleport alias may not be empty" then some .invalidName
  else if m = "TargetNotFound: teleport target is not an existing directory" then some .targetNotFound
  else if m = "NotFound: no such teleport alias" then some .notFound
  else none

/-- Recovers the taxonomy condition from a raised error alone. -/
def classify : Err → Option ErrKind
  | .storage m => msgKind m
  | .parseError => some .parseError
  | .ioError => some .filesystemError
  | _ => none

/-! ### Helper lemmas -/

lemma lookupA_setA_self {α : Type} (l : List (String × α)) (k : String) (v : α) :
    lookupA (setA l k v) k = some v := by
  induction l with
  | nil => simp [setA, lookupA]
  | cons hd tl ih =>
    obtain ⟨k', v'⟩ := hd
    by_cases hk : k = k' <;> simp [setA, lookupA, hk, ih]

lemma mem_map_fst_setA {α : Type} (l : List (String × α)) (k : String) (v : α) :
    k ∈ (setA l k v).map Prod.fst := by
  induction l with
  | nil => simp [setA]
  | cons hd tl ih =>
    obtain ⟨k', v'⟩ := hd
    by_cases hk : k = k' <;> simp [setA, hk, ih]

lemma data_append (s t : String) : (s ++ t).data = s.data ++ t.data := by
  cases s; cases t; rfl

lemma sfx_append_self (n S : String) : sfx S (n ++ S) = true := by
  unfold sfx
  rw [data_append]
  exact decide_eq_true (List.suffix_append n.data S.data)

lemma sfx_pat_false (n : String) {S T : String}
    (h1 : ¬ T.data <:+ S.data) (h2 : ¬ S.data <:+ T.data) :
    sfx T (n ++ S) = false := by
  unfold sfx
  rw [data_append]
  apply decide_eq_false
  intro hsuf
  rcases List.suffix_or_suffix_of_suffix hsuf (List.suffix_append n.data S.data) with h | h
  · exact h1 h
  · exact h2 h

lemma append_ne_of_not_sfx (n : String) {S T : String}
    (h : ¬ S.data <:+ T.data) : n ++ S ≠ T := by
  intro he
  apply h
  rw [← he, data_append]
  exact List.suffix_append n.data S.data

lemma msgKind_append_A (n : String) : msgKind (n ++ sA) = some .alreadyExists := by
  unfold msgKind
  rw [sfx_append_self]
  rfl

lemma msgKind_append_P (n : String) : msgKind (n ++ sP) = some .invalidName := by
  unfold msgKind
  rw [sfx_pat_false n (by decide) (by decide), sfx_append_self]
  rfl

lemma msgKind_append_G (n : String) : msgKind (n ++ sG) = some .invalidName := by
  unfold msgKind
  rw [sfx_pat_false n (by decide) (by decide),
      sfx_pat_false n (by decide) (by decide), sfx_append_self]
  rfl

lemma msgKind_append_N (n : String) : msgKind (n ++ sN) = some .notFound := by
  unfold msgKind
  rw [sfx_pat_false n (by decide) (by decide),
      sfx_pat_false n (by decide) (by decide),
      sfx_pat_false n (by decide) (by decide),
      if_neg (append_ne_of_not_sfx n (by decide)), sfx_append_self]
  rfl

lemma settings_setPF (fs : FS) (n : String) (f : PFile) :
    (setPF fs n f).settings = fs.settings := rfl

/-- After a successful `get_active_profile_name`, the resulting state holds
a parsed settings document whose active name is the returned one, and the
profile files are untouched. -/
lemma gapn_ok {fs fs1 : FS} {prof : String}
    (h : get_active_profile_name fs = (.ok prof, fs1)) :
    ∃ s : SettingsDoc, fs1 = ⟨some (SFile.content s), fs.profileFiles⟩ ∧
      prof = s.current_profile.getD "default" := by
  obtain ⟨st, pf⟩ := fs
  rcases st with _ | sf
  · refine ⟨defaultSettings, ?_⟩
    simp [get_active_profile_name, _get_settings] at h
    obtain ⟨h1, h2⟩ := h
    constructor
    · exact h2.symm
    · simp [← h1, defaultSettings]
  · rcases sf with s | _ | _ <;>
      simp [get_active_profile_name, _get_settings] at h
    obtain ⟨h1, h2⟩ := h
    exact ⟨s, by rw [← h2], h1.symm⟩

/-- Running `get_active_profile_name` on a state whose settings file is a
parsed document returns its active name and leaves the state unchanged. -/
lemma gapn_of_settings {fs : FS} {s : SettingsDoc}
    (h : fs.settings = some (SFile.content s)) :
    get_active_profile_name fs = (.ok (s.current_profile.getD "default"), fs) := by
  simp [get_active_profile_name, _get_settings, h]

/-- A successful public `get_named_profile` means the name is not reserved,
and the settings file is untouched. -/
lemma gnp_ok {n : String} {fs fs2 : FS} {d : Doc}
    (h : get_named_profile n fs true = (.ok d, fs2)) :
    startsWithUnderscore n = false ∧ fs2.settings = fs.settings := by
  by_cases hu : startsWithUnderscore n
  · simp [get_named_profile, hu] at h
  · refine ⟨by simp [hu], ?_⟩
    simp only [get_named_profile, hu, Bool.and_false, Bool.false_eq_true,
      if_neg, Bool.and_true] at h
    rcases hl : lookupA fs.profileFiles n with _ | f
    · rw [hl] at h
      simp at h
      rw [← h.2, settings_setPF]
    · rcases f with d' | _ | _ <;> rw [hl] at h <;> simp at h
      · rw [← h.2]
      · rw [← h.2, settings_setPF]

/-- Reading a profile back directly after writing it returns exactly the
written document and leaves the state unchanged. -/
lemma gnp_after_update (n : String) (d : Doc) (fs : FS)
    (h : startsWithUnderscore n = false) :
    get_named_profile n (update_named_profile n d fs) true =
      (.ok d, update_named_profile n d fs) := by
  simp [get_named_profile, h, update_named_profile, setPF, lookupA_setA_self]

/-! ### Claim theorems -/

/-- C1: the claim says `remove_profile("default")` always fails with
InvalidName.  In the code `remove_profile` has no guard for `"default"`:
on a fresh config home it removes `"default"` from the profiles list,
persists the settings, and afterwards `list_profiles()` is empty. -/
theorem remove_profile_default_succeeds :
    remove_profile "default" ⟨none, []⟩ =
      (.ok (), ⟨some (SFile.content ⟨some "default", some []⟩), []⟩) ∧
    (list_profiles (remove_profile "default" (⟨none, []⟩ : FS)).2).1 =
      .ok ([] : List String) := by
  exact ⟨rfl, rfl⟩

/-- C2: the claim says `set_current_profile(name)` persists the change so
that `get_active_profile_name()` afterwards returns `name`.  In the code
`set_current_profile` mutates only the in-memory dict and never writes it
back, so after `add_profile("work"); set_current_profile("work")` on a
fresh config home, `get_active_profile_name()` still returns
`"default"`. -/
theorem set_current_profile_not_persisted :
    (add_profile "work" ⟨none, []⟩).1 = .ok () ∧
    (set_current_profile "work" (add_profile "work" (⟨none, []⟩ : FS)).2).1 = .ok () ∧
    (get_active_profile_name
      (set_current_profile "work" (add_profile "work" (⟨none, []⟩ : FS)).2).2).1 =
      .ok "default" := by
  exact ⟨rfl, rfl, rfl⟩

/-- C4 counterexample: the claim says `add_profile("default")` fails with
InvalidName.  Since `"default"` is always in the profiles list, the
duplicate check fires first: the raised error is the AlreadyExists
condition (message `"default is a profile that already exists"`), not the
InvalidName one. -/
theorem add_profile_default_already_exists :
    (add_profile "default" ⟨none, []⟩).1 = .error (.storage ("default" ++ sA)) ∧
    classify (.storage ("default" ++ sA)) = some .alreadyExists ∧
    classify (.storage ("default" ++ sA)) ≠ some .invalidName := by
  refine ⟨rfl, by decide, by decide⟩

/-- C4 (amended): for every name that does not start with `"_"`, is not
`"default"`, and is not already in the profiles list, `add_profile`
appends the name and persists the settings, so `list_profiles` afterwards
includes it; a second `add_profile` of the same name fails with
AlreadyExists; `add_profile` of a reserved-prefix name that is not in the
list fails with InvalidName; and `add_profile("default")` fails with
AlreadyExists, since `"default"` is in the list and the duplicate check
runs before the dedicated `"default"` check. -/
theorem add_profile_spec (n : String) (cp : Option String) (ps : List String)
    (pf : List (String × PFile)) (hmem : n ∉ ps)
    (hpre : startsWithUnderscore n = false) (hdef : n ≠ "default") :
    add_profile n ⟨some (SFile.content ⟨cp, some ps⟩), pf⟩ =
      (.ok (), ⟨some (SFile.content ⟨cp, some (ps ++ [n])⟩), pf⟩) ∧
    (list_profiles ⟨some (SFile.content ⟨cp, some (ps ++ [n])⟩), pf⟩).1 =
      .ok (ps ++ [n]) ∧
    n ∈ ps ++ [n] ∧
    (add_profile n ⟨some (SFile.content ⟨cp, some (ps ++ [n])⟩), pf⟩).1 =
      .error (.storage (n ++ sA)) ∧
    (∀ m, startsWithUnderscore m = true → m ∉ ps →
      (add_profile m ⟨some (SFile.content ⟨cp, some ps⟩), pf⟩).1 =
        .error (.storage (m ++ sP))) ∧
    ("default" ∈ ps →
      (add_profile "default" ⟨some (SFile.content ⟨cp, some ps⟩), pf⟩).1 =
        .error (.storage ("default" ++ sA))) := by
  refine ⟨?_, ?_, ?_, ?_, ?_, ?_⟩
  · simp [add_profile, _get_settings, _update_settings, hmem, hpre, hdef]
  · simp [list_profiles, _get_settings]
  · simp
  · simp [add_profile, _get_settings]
  · intro m hm hmem'
    simp [add_profile, _get_settings, hmem', hm]
  · intro hd
    simp [add_profile, _get_settings, hd]

/-- C4 witness: instance of the amended claim at name `"work"` over the
default settings. -/
theorem add_profile_spec_witness :
    add_profile "work" ⟨some (SFile.content ⟨some "default", some ["default"]⟩), []⟩ =
      (.ok (), ⟨some (SFile.content ⟨some "default", some ["default", "work"]⟩), []⟩) ∧
    (add_profile "work"
      ⟨some (SFile.content ⟨some "default", some ["default", "work"]⟩), []⟩).1 =
      .error (.storage ("work" ++ sA)) ∧
    (add_profile "_bad"
      ⟨some (SFile.content ⟨some "default", some ["default"]⟩), []⟩).1 =
      .error (.storage ("_bad" ++ sP)) ∧
    (add_profile "default"
      ⟨some (SFile.content ⟨some "default", some ["default"]⟩), []⟩).1 =
      .error (.storage ("default" ++ sA)) := by
  have h := add_profile_spec "work" (some "default") ["default"] []
    (by decide) rfl (by decide)
  exact ⟨h.1, h.2.2.2.1, h.2.2.2.2.1 "_bad" rfl (by decide), h.2.2.2.2.2 (by decide)⟩

/-- C5: `update_named_profile(n, D)` followed by `get_named_profile(n)`
returns exactly `D`, for every profile name that does not start with the
reserved prefix. -/
theorem update_get_roundtrip (n : String) (D : Doc) (fs : FS)
    (h : startsWithUnderscore n = false) :
    get_named_profile n (update_named_profile n D fs) true =
      (.ok D, update_named_profile n D fs) :=
  gnp_after_update n D fs h

/-- C5 witness: round trip of a one-entry document through profile
`"work"` on a fresh config home. -/
theorem update_get_roundtrip_witness :
    get_named_profile "work"
        (update_named_profile "work" [("test", Toml.str "abcd")] ⟨none, []⟩) true =
      (.ok [("test", Toml.str "abcd")],
        update_named_profile "work" [("test", Toml.str "abcd")] ⟨none, []⟩) :=
  update_get_roundtrip "work" [("test", Toml.str "abcd")] ⟨none, []⟩ rfl

/-- C6: the claim says `get_config_home` falls back to the per-user config
directory (or the dotfile directory) when the override variable is unset,
and creates the resolved directory with all missing parents.  In the code
both `os.path.join` calls are evaluated eagerly when the tuple passed to
`util.cond` is built, so with `XDG_CONFIG_HOME` unset the call
`os.path.join(None, 'goto-cd')` raises TypeError before any fallback is
selected — here even though `~/.config` exists on disk.  (Additionally,
`touch_directory` calls `mkdir` without `parents=True`, so missing parent
segments are never created.) -/
theorem get_config_home_unset_override :
    get_config_home ⟨none, "/home/user"⟩ ⟨["/home/user", "/home/user/.config"]⟩ =
      (.error .typeError, ⟨["/home/user", "/home/user/.config"]⟩) ∧
    touch_directory ⟨["/a"]⟩ "/a/b/c" = .error .ioError := by
  exact ⟨rfl, rfl⟩

/-- C7: `get_named_profile` on a name whose backing file does not exist
returns the empty document, and afterwards the backing file exists (as an
empty file, which parses as the empty document). -/
theorem get_named_profile_creates (n : String) (fs : FS)
    (h1 : startsWithUnderscore n = false)
    (h2 : lookupA fs.profileFiles n = none) :
    get_named_profile n fs true = (.ok [], setPF fs n (PFile.content [])) ∧
    lookupA (setPF fs n (PFile.content [])).profileFiles n =
      some (PFile.content []) := by
  constructor
  · simp [get_named_profile, h1, h2]
  · simp [setPF, lookupA_setA_self]

/-- C7 witness: `get_named_profile("doesnotexist")` on a fresh config
home. -/
theorem get_named_profile_creates_witness :
    get_named_profile "doesnotexist" ⟨none, []⟩ true =
      (.ok [], setPF ⟨none, []⟩ "doesnotexist" (PFile.content [])) ∧
    lookupA (setPF (⟨none, []⟩ : FS) "doesnotexist" (PFile.content [])).profileFiles
      "doesnotexist" = some (PFile.content []) :=
  get_named_profile_creates "doesnotexist" ⟨none, []⟩ rfl rfl

/-- C8: public `get_named_profile` fails with the InvalidName
StorageException for every reserved-prefix name; and when the backing file
exists but reading it raises IOError, it returns the empty document (and
rewrites the file empty) instead of propagating the error. -/
theorem get_named_profile_guard_and_fallback :
    (∀ (n : String) (fs : FS), startsWithUnderscore n = true →
      get_named_profile n fs true = (.error (.storage (n ++ sG)), fs)) ∧
    (∀ (n : String) (fs : FS), startsWithUnderscore n = false →
      lookupA fs.profileFiles n = some PFile.ioError →
      get_named_profile n fs true = (.ok [], setPF fs n (PFile.content []))) := by
  constructor
  · intro n fs h
    simp [get_named_profile, h]
  · intro n fs h1 h2
    simp [get_named_profile, h1, h2]

/-- C8 witness: the reserved name `"_notokay"` is rejected, and a profile
file in I/O-error state yields the empty document. -/
theorem get_named_profile_guard_and_fallback_witness :
    get_named_profile "_notokay" ⟨none, []⟩ true =
      (.error (.storage ("_notokay" ++ sG)), ⟨none, []⟩) ∧
    get_named_profile "p" ⟨none, [("p", PFile.ioError)]⟩ true =
      (.ok [], setPF ⟨none, [("p", PFile.ioError)]⟩ "p" (PFile.content [])) :=
  ⟨get_named_profile_guard_and_fallback.1 "_notokay" ⟨none, []⟩ rfl,
   get_named_profile_guard_and_fallback.2 "p" ⟨none, [("p", PFile.ioError)]⟩ rfl rfl⟩

/-- C10: whenever `add_profile` or `remove_profile` raises, the persisted
settings document (indeed the whole config home) is unchanged: every
validation check happens before the single write at the end of each
function. -/
theorem failed_profile_ops_preserve_state (n : String) (fs : FS)
    (s : SettingsDoc) (h : fs.settings = some (SFile.content s)) :
    (∀ e, (add_profile n fs).1 = .error e → (add_profile n fs).2 = fs) ∧
    (∀ e, (remove_profile n fs).1 = .error e → (remove_profile n fs).2 = fs) := by
  constructor
  · intro e he
    simp only [add_profile, _get_settings, h] at he ⊢
    rcases hp : s.profiles with _ | ps
    · simp [hp]
    · simp only [hp] at he ⊢
      split_ifs at he ⊢
      all_goals simp_all
  · intro e he
    simp only [remove_profile, _get_settings, h] at he ⊢
    rcases hp : s.profiles with _ | ps
    · simp [hp]
    · simp only [hp] at he ⊢
      split_ifs at he ⊢
      all_goals simp_all

/-- C10 witness: a failing `add_profile("_x")` (reserved prefix) and a
failing `remove_profile("_x")` (not a profile) both leave the state
unchanged. -/
theorem failed_profile_ops_preserve_state_witness :
    (add_profile "_x"
      ⟨some (SFile.content ⟨some "default", some ["default"]⟩), []⟩).2 =
      ⟨some (SFile.content ⟨some "default", some ["default"]⟩), []⟩ ∧
    (remove_profile "_x"
      ⟨some (SFile.content ⟨some "default", some ["default"]⟩), []⟩).2 =
      ⟨some (SFile.content ⟨some "default", some ["default"]⟩), []⟩ := by
  have h := failed_profile_ops_preserve_state "_x"
    ⟨some (SFile.content ⟨some "default", some ["default"]⟩), []⟩
    ⟨some "default", some ["default"]⟩ rfl
  exact ⟨h.1 (.storage ("_x" ++ sP)) rfl, h.2 (.storage ("_x" ++ sN)) rfl⟩

/-- C3: `set_teleport(alias, target_dir)` fails with InvalidName on an
empty alias and with TargetNotFound when the target is not an existing
directory; otherwise it stores the absolute path of the target under the
alias in the active profile, so that `get_teleport_target(alias)` returns
that absolute path and `list_teleports()` includes the alias.  The
teleport manager is absent from src/ and is modelled from the spec. -/
theorem set_teleport_correct (w : World) (a t : String) (fs fs' : FS) :
    (a = "" → (set_teleport w a t fs).1 =
      .error (.storage "InvalidName: teleport alias may not be empty")) ∧
    (a ≠ "" → t ∉ w.dirs → (set_teleport w a t fs).1 =
      .error (.storage "TargetNotFound: teleport target is not an existing directory")) ∧
    (set_teleport w a t fs = (.ok (), fs') →
      (get_teleport_target a fs').1 = .ok (w.abspathOf t) ∧
      ∃ l, (list_teleports fs').1 = .ok l ∧ a ∈ l) := by
  refine ⟨?_, ?_, ?_⟩
  · intro ha
    simp [set_teleport, ha]
  · intro ha ht
    simp [set_teleport, ha, ht]
  · intro hok
    by_cases ha : a = ""
    · simp [set_teleport, ha] at hok
    by_cases ht : t ∈ w.dirs
    swap
    · simp [set_teleport, ha, ht] at hok
    simp only [set_teleport, if_neg ha, if_pos ht] at hok
    rcases hact : get_active_profile_name fs with ⟨r1, fs1⟩
    rw [hact] at hok
    cases r1 with
    | error e => simp at hok
    | ok prof =>
      dsimp only at hok
      rcases hgnp : get_named_profile prof fs1 true with ⟨r2, fs2⟩
      rw [hgnp] at hok
      cases r2 with
      | error e => simp at hok
      | ok d =>
        dsimp only at hok
        simp only [Prod.mk.injEq] at hok
        obtain ⟨s, hfs1, hprof⟩ := gapn_ok hact
        obtain ⟨hu, hset2⟩ := gnp_ok hgnp
        have hfs' : fs' =
            update_named_profile prof
              (setA d "teleports"
                (Toml.table (setA (getTable d "teleports") a
                  (Toml.str (w.abspathOf t))))) fs2 := hok.2.symm
        have hsets' : fs'.settings = some (SFile.content s) := by
          rw [hfs']
          show (setPF fs2 prof _).settings = _
          rw [settings_setPF, hset2, hfs1]
        have hact' : get_active_profile_name fs' = (.ok prof, fs') := by
          rw [gapn_of_settings hsets', ← hprof]
        have hgnp' : get_named_profile prof fs' true =
            (.ok (setA d "teleports"
              (Toml.table (setA (getTable d "teleports") a
                (Toml.str (w.abspathOf t))))), fs') := by
          rw [hfs']
          exact gnp_after_update prof _ fs2 hu
        constructor
        · simp [get_teleport_target, hact', hgnp', getTable, lookupA_setA_self]
        · refine ⟨(setA (getTable d "teleports") a
            (Toml.str (w.abspathOf t))).map Prod.fst, ?_, ?_⟩
          · simp [list_teleports, hact', hgnp', getTable, lookupA_setA_self]
          · exact mem_map_fst_setA _ a _

/-- C3 witness: on a fresh config home, `set_teleport("thisdir", "/tmp")`
with `/tmp` an existing directory makes `get_teleport_target("thisdir")`
return the absolute path and `list_teleports()` include the alias. -/
theorem set_teleport_correct_witness :
    (get_teleport_target "thisdir"
      (set_teleport ⟨["/tmp"], fun s => s⟩ "thisdir" "/tmp" ⟨none, []⟩).2).1 =
      .ok "/tmp" ∧
    ∃ l, (list_teleports
      (set_teleport ⟨["/tmp"], fun s => s⟩ "thisdir" "/tmp" ⟨none, []⟩).2).1 =
      .ok l ∧ "thisdir" ∈ l := by
  have h := (set_teleport_correct ⟨["/tmp"], fun s => s⟩ "thisdir" "/tmp" ⟨none, []⟩
    (set_teleport ⟨["/tmp"], fun s => s⟩ "thisdir" "/tmp" ⟨none, []⟩).2).2.2 rfl
  exact ⟨h.1, h.2⟩

/-- C9: each condition of the error taxonomy is surfaced as a distinct
catchable error: the condition is recoverable from the raised error alone
via `classify` (StorageException messages have condition-specific fixed
tails; parse and I/O failures are distinct exception classes), and the
sole swallowed error is the IOError read fallback of `get_named_profile`,
which yields the empty document instead.  TargetNotFound comes from the
spec-modelled teleport manager. -/
theorem error_taxonomy_distinguishable :
    (∀ (n : String) (fs : FS) (cp : Option String) (ps : List String),
      fs.settings = some (SFile.content ⟨cp, some ps⟩) → n ∈ ps →
      (add_profile n fs).1 = .error (.storage (n ++ sA)) ∧
      classify (.storage (n ++ sA)) = some .alreadyExists) ∧
    (∀ (n : String) (fs : FS) (cp : Option String) (ps : List String),
      fs.settings = some (SFile.content ⟨cp, some ps⟩) → n ∉ ps →
      startsWithUnderscore n = true →
      (add_profile n fs).1 = .error (.storage (n ++ sP)) ∧
      classify (.storage (n ++ sP)) = some .invalidName) ∧
    (∀ (n : String) (fs : FS) (cp : Option String) (ps : List String),
      fs.settings = some (SFile.content ⟨cp, some ps⟩) → n ∉ ps →
      (remove_profile n fs).1 = .error (.storage (n ++ sN)) ∧
      classify (.storage (n ++ sN)) = some .notFound) ∧
    (∀ (w : World) (a t : String) (fs : FS), a ≠ "" → t ∉ w.dirs →
      (set_teleport w a t fs).1 = .error
        (.storage "TargetNotFound: teleport target is not an existing directory") ∧
      classify (.storage "TargetNotFound: teleport target is not an existing directory") =
        some .targetNotFound) ∧
    (∀ fs : FS, fs.settings = some SFile.malformed →
      (list_profiles fs).1 = .error .parseError ∧
      classify .parseError = some .parseError) ∧
    (∀ fs : FS, fs.settings = some SFile.ioError →
      (list_profiles fs).1 = .error .ioError ∧
      classify .ioError = some .filesystemError) ∧
    (∀ (n : String) (fs : FS), startsWithUnderscore n = false →
      lookupA fs.profileFiles n = some PFile.ioError →
      (get_named_profile n fs true).1 = .ok []) := by
  refine ⟨?_, ?_, ?_, ?_, ?_, ?_, ?_⟩
  · intro n fs cp ps hset hmem
    refine ⟨by simp [add_profile, _get_settings, hset, hmem], ?_⟩
    simp only [classify]
    exact msgKind_append_A n
  · intro n fs cp ps hset hmem hpre
    refine ⟨by simp [add_profile, _get_settings, hset, hmem, hpre], ?_⟩
    simp only [classify]
    exact msgKind_append_P n
  · intro n fs cp ps hset hmem
    refine ⟨by simp [remove_profile, _get_settings, hset, hmem], ?_⟩
    simp only [classify]
    exact msgKind_append_N n
  · intro w a t fs ha ht
    refine ⟨by simp [set_teleport, ha, ht], by decide⟩
  · intro fs hset
    exact ⟨by simp [list_profiles, _get_settings, hset], by decide⟩
  · intro fs hset
    exact ⟨by simp [list_profiles, _get_settings, hset], by decide⟩
  · intro n fs h1 h2
    simp [get_named_profile, h1, h2]

/-- C9 witness: one concrete raising input per taxonomy condition, plus
the empty-document fallback. -/
theorem error_taxonomy_distinguishable_witness :
    ((add_profile "work" ⟨some (SFile.content ⟨some "default", some ["work"]⟩), []⟩).1 =
      .error (.storage ("work" ++ sA)) ∧
      classify (.storage ("work" ++ sA)) = some .alreadyExists) ∧
    ((add_profile "_x" ⟨some (SFile.content ⟨some "default", some ["default"]⟩), []⟩).1 =
      .error (.storage ("_x" ++ sP)) ∧
      classify (.storage ("_x" ++ sP)) = some .invalidName) ∧
    ((remove_profile "nope"
        ⟨some (SFile.content ⟨some "default", some ["default"]⟩), []⟩).1 =
      .error (.storage ("nope" ++ sN)) ∧
      classify (.storage ("nope" ++ sN)) = some .notFound) ∧
    ((set_teleport ⟨[], fun s => s⟩ "x" "/nope" ⟨none, []⟩).1 = .error
        (.storage "TargetNotFound: teleport target is not an existing directory") ∧
      classify (.storage "TargetNotFound: teleport target is not an existing directory") =
        some .targetNotFound) ∧
    ((list_profiles ⟨some SFile.malformed, []⟩).1 = .error .parseError ∧
      classify .parseError = some .parseError) ∧
    ((list_profiles ⟨some SFile.ioError, []⟩).1 = .error .ioError ∧
      classify .ioError = some .filesystemError) ∧
    (get_named_profile "p" ⟨none, [("p", PFile.ioError)]⟩ true).1 = .ok [] := by
  have h := error_taxonomy_distinguishable
  exact ⟨h.1 "work" _ (some "default") ["work"] rfl (by decide),
    h.2.1 "_x" _ (some "default") ["default"] rfl (by decide) rfl,
    h.2.2.1 "nope" _ (some "default") ["default"] rfl (by decide),
    h.2.2.2.1 ⟨[], fun s => s⟩ "x" "/nope" ⟨none, []⟩ (by decide) (by simp),
    h.2.2.2.2.1 ⟨some SFile.malformed, []⟩ rfl,
    h.2.2.2.2.2.1 ⟨some SFile.ioError, []⟩ rfl,
    h.2.2.2.2.2.2 "p" ⟨none, [("p", PFile.ioError)]⟩ rfl rfl⟩

end GotoStorage
